import Mathlib

/-!
# Shallow embedding of the dogtor veterinary-clinic backend

This file embeds the request handlers of `src/dogtor/api/views.py` and the
data model of `src/dogtor/api/models.py` as executable Lean definitions and
proves properties of them.  The relational store is embedded as lists of
rows; SQLAlchemy's `scalar` is first-match-or-none, `scalar_one_or_none`
raises on more than one row, and `scalar_one` raises unless exactly one row
matches.  Third-party behaviour the handlers rely on (PyJWT's
`encode`/`decode`, werkzeug's password hashing, Python's `str.split` and
`str.startswith`) is embedded from the documented semantics of those
libraries.  An uncaught Python exception is a distinct outcome constructor,
never a crafted HTTP response.
-/

namespace Dogtor

/-! ## Data model (src/dogtor/api/models.py) -/

/-- Row of the `user` table: `User` in models.py — id, first_name
(`nullable=False`), last_name (`nullable=True`), unique email
(`nullable=False`), password hash (`nullable=False`).  The NOT NULL
columns are plain `String`; only the nullable one is an `Option`. -/
structure User where
  id : Nat
  first_name : String
  last_name : Option String
  email : String
  password : String
deriving DecidableEq, Repr

/-- Row of the `owner` table: `Owner` in models.py. -/
structure Owner where
  id : Nat
  first_name : String
  last_name : String
  phone : String
  mobile : String
  email : String
deriving DecidableEq, Repr

/-- Row of the `species` table: `Species` in models.py. -/
structure Species where
  id : Nat
  name : String
deriving DecidableEq, Repr

/-- Row of the `pet` table: `Pet` in models.py (owner_id, species_id
foreign keys, age). -/
structure Pet where
  id : Nat
  name : String
  owner_id : Int
  age : Int
  species_id : Int
deriving DecidableEq, Repr

/-! ## JSON request payloads

A JSON body is embedded as a record of `Option` fields: `none` means the
key is absent from the parsed dictionary (`field not in data` /
`data.get(field) is None`). -/

/-- Body of POST/PUT /pets/: keys `name`, `owner_id`, `age`, `species_id`. -/
structure PetData where
  name : Option String
  owner_id : Option Int
  age : Option Int
  species_id : Option Int
deriving DecidableEq, Repr

/-- Body of POST/PUT /owners/: keys `first_name`, `last_name`, `phone`,
`mobile`, `email`. -/
structure OwnerData where
  first_name : Option String
  last_name : Option String
  phone : Option String
  mobile : Option String
  email : Option String
deriving DecidableEq, Repr

/-- Body of POST/PUT /species/: single key `name`. -/
structure SpeciesData where
  name : Option String
deriving DecidableEq, Repr

/-- Body of POST /signup/. -/
structure SignupData where
  email : Option String
  password : Option String
  first_name : Option String
  last_name : Option String
deriving DecidableEq, Repr

/-- Body of POST /login/. -/
structure LoginData where
  email : Option String
  password : Option String
deriving DecidableEq, Repr

/-! ## View outcomes -/

/-- Result of running a Flask view against a store of type `σ`:
either a JSON error/confirmation body `{"detail": msg}` with a status code,
a JSON entity body (`to_dict()` output) with a status code, or an uncaught
Python exception (which Flask turns into a generic 500, never a handler
response).  Each constructor carries the store after the call. -/
inductive Outcome (σ α : Type) where
  | detail (state : σ) (status : Nat) (msg : String)
  | payload (state : σ) (status : Nat) (value : α)
  | raise (state : σ) (exn : String)
deriving DecidableEq, Repr

/-! ## werkzeug password hashing

Embedded from werkzeug's documented contract: `generate_password_hash`
produces a salted one-way hash and `check_password_hash` succeeds exactly
on the password that was hashed.  We model the hash as a tagged copy of
the password, which realises that contract deterministically. -/

/-- Embeds `werkzeug.security.generate_password_hash`. -/
def generate_password_hash (password : String) : String :=
  "pbkdf2:" ++ password

/-- Embeds `werkzeug.security.check_password_hash`. -/
def check_password_hash (pwhash password : String) : Bool :=
  pwhash == generate_password_hash password

/-! ## PyJWT

A JWT is embedded as its decoded content plus the key that signed it:
signature verification under key `k` succeeds exactly when the token was
signed with `k`.  `sub` and `exp` are optional claims; views.py issues
tokens with both present.  Timestamps are Unix seconds (`Int`). -/

/-- A signed token: payload claims plus the signing key. -/
structure Token where
  sub : Option Int
  exp : Option Int
  key : String
deriving DecidableEq, Repr

/-- Decoded claims returned by a successful `jwt.decode`. -/
structure JwtPayload where
  sub : Option Int
  exp : Option Int
deriving DecidableEq, Repr

/-- Result of `jwt.decode`: the two exception classes views.py catches,
or the payload. -/
inductive JwtResult where
  | expired
  | invalid
  | ok (payload : JwtPayload)
deriving DecidableEq, Repr

/-- Embeds `jwt.encode({"sub": sub, "exp": utcnow + 30min}, key)` as used
in `login` (views.py lines 381-387): 30 minutes = 1800 seconds. -/
def jwt_encode (sub : Int) (now : Int) (key : String) : Token :=
  { sub := some sub, exp := some (now + 1800), key := key }

/-- Embeds `jwt.decode(token, key, algorithms=["HS256"])` (PyJWT):
signature verification first (`InvalidTokenError` on mismatch), then the
`exp` claim when present; PyJWT's `_validate_exp` raises
`ExpiredSignatureError` when `exp <= now` (leeway 0).  No claim is
required to be present under PyJWT's default options. -/
def jwt_decode (tok : Token) (key : String) (now : Int) : JwtResult :=
  if tok.key ≠ key then .invalid
  else
    match tok.exp with
    | some e => if e ≤ now then .expired else .ok { sub := tok.sub, exp := some e }
    | none => .ok { sub := tok.sub, exp := none }

/-! ## Python string operations used by `token_required` -/

/-- Embeds Python `s.split(" ")`: split at every single space, without
collapsing adjacent separators (`"a  b".split(" ") == ["a", "", "b"]`). -/
def pysplit_space : List Char → List (List Char)
  | [] => [[]]
  | c :: cs =>
      let rest := pysplit_space cs
      if c = ' ' then [] :: rest
      else (c :: rest.headD []) :: rest.tail

/-- String-level wrapper of `pysplit_space`. -/
def split_on_space (s : String) : List String :=
  (pysplit_space s.data).map String.mk

/-- Characters other than the separator of `str.split(" ")`. -/
def not_space (c : Char) : Bool :=
  c ≠ ' '

/-- Embeds Python `s.startswith(pre)`. -/
def startswith (s pre : String) : Bool :=
  pre.data.isPrefixOf s.data

/-- Embeds SQL `lower()` / Python `str.lower()` as used in the uniqueness
checks: character-wise lowercasing. -/
def lower (s : String) : String :=
  String.mk (s.data.map Char.toLower)

/-- The token string `token_required` passes to `jwt.decode`:
`authorization.split(" ")[1]` (views.py line 26).  The index never goes
out of range on the reachable inputs because the header was checked to
start with `"Bearer "`, which contains a space. -/
def extracted_token (authorization : String) : String :=
  (split_on_space authorization).getD 1 ""

/-! ## Auth middleware (`token_required`, views.py lines 14-43) -/

/-- Outcome of the `token_required` wrapper: a JSON error response
`{"detail": detail}` with a status, an uncaught Python exception, or
control passed to the wrapped view with `request.user` resolved. -/
inductive MwOutcome where
  | response (status : Nat) (detail : String)
  | raise (exn : String)
  | proceed (user : User)
deriving DecidableEq, Repr

/-- The part of `token_required` after token extraction (views.py lines
30-41): `jwt.decode` under the process secret, `payload["sub"]` (a
`KeyError` when the claim is absent), then
`db.session.execute(select(User).where(User.id == payload["sub"])).scalar_one()`
— which raises `NoResultFound` on zero rows and `MultipleResultsFound` on
more than one.  `interp` maps a wire string to the token it denotes
(`none` = not a well-formed JWT, so `InvalidTokenError`). -/
def token_required_verify (interp : String → Option Token) (secret : String)
    (now : Int) (users : List User) (token : String) : MwOutcome :=
  match interp token with
  | none => .response 401 "Invalid token"
  | some tok =>
    match jwt_decode tok secret now with
    | .expired => .response 401 "Token expired"
    | .invalid => .response 401 "Invalid token"
    | .ok payload =>
      match payload.sub with
      | none => .raise "KeyError"
      | some s =>
        match users.filter (fun u => (u.id : Int) == s) with
        | [] => .raise "NoResultFound"
        | [u] => .proceed u
        | _ :: _ :: _ => .raise "MultipleResultsFound"

/-- Embeds the `token_required` decorator (views.py lines 14-43).
`authorization` is `request.headers.get("Authorization")`; Python's
falsy test `if not authorization` treats both a missing header and an
empty one as absent. -/
def token_required (interp : String → Option Token) (secret : String)
    (now : Int) (users : List User) (authorization : Option String) : MwOutcome :=
  let auth := authorization.getD ""
  if auth = "" then .response 401 "Missing \"Authorization\" header"
  else if startswith auth "Bearer " = false then .response 401 "Invalid token prefix"
  else
    let token := extracted_token auth
    if token = "" then .response 401 "Missing token"
    else token_required_verify interp secret now users token

/-! ## Pet handlers (views.py lines 102-167) -/

/-- Server-assigned autoincrement primary key for a new pet row. -/
def next_pet_id (pets : List Pet) : Nat :=
  (pets.map (fun p => p.id)).foldr max 0 + 1

/-- Embeds `create_pet` (views.py lines 102-131): required fields `name`,
`owner_id`, `age`, `species_id` checked in order (400 on the first
missing one); then a pre-insert uniqueness check on the case-insensitive
(name, owner_id, species_id) triple (409 on a match); else insert and
201. -/
def create_pet (pets : List Pet) (data : PetData) : Outcome (List Pet) Pet :=
  if data.name.isNone then .detail pets 400 "\"name\" field is required"
  else if data.owner_id.isNone then .detail pets 400 "\"owner_id\" field is required"
  else if data.age.isNone then .detail pets 400 "\"age\" field is required"
  else if data.species_id.isNone then .detail pets 400 "\"species_id\" field is required"
  else
    let pet_name := data.name.getD ""
    let owner_id := data.owner_id.getD 0
    let species_id := data.species_id.getD 0
    if (pets.find? (fun p =>
        lower p.name == lower pet_name && p.owner_id == owner_id
          && p.species_id == species_id)).isSome then
      .detail pets 409 ("Pet \"" ++ pet_name ++ "\" already exists")
    else
      let pet : Pet :=
        { id := next_pet_id pets, name := pet_name, owner_id := owner_id,
          age := data.age.getD 0, species_id := species_id }
      .payload (pets ++ [pet]) 201 pet

/-- Embeds `update_pet` (views.py lines 134-153): look the pet up first
(404 if absent), then check the same required-field set as create (400),
then apply every provided key onto the row and commit. -/
def update_pet (pets : List Pet) (pet_id : Nat) (data : PetData) :
    Outcome (List Pet) Pet :=
  match pets.find? (fun p => p.id == pet_id) with
  | none => .detail pets 404 ("Pet with id " ++ toString pet_id ++ " not found")
  | some pet =>
    if data.name.isNone then .detail pets 400 "\"name\" field is required"
    else if data.owner_id.isNone then .detail pets 400 "\"owner_id\" field is required"
    else if data.age.isNone then .detail pets 400 "\"age\" field is required"
    else if data.species_id.isNone then .detail pets 400 "\"species_id\" field is required"
    else
      let pet' : Pet :=
        { pet with
            name := data.name.getD pet.name,
            owner_id := data.owner_id.getD pet.owner_id,
            age := data.age.getD pet.age,
            species_id := data.species_id.getD pet.species_id }
      .payload (pets.map (fun p => if p.id == pet_id then pet' else p)) 200 pet'

/-- Embeds `delete_pet` (views.py lines 156-167): look the pet up (404 if
absent, store untouched), else delete that row and confirm with 200. -/
def delete_pet (pets : List Pet) (pet_id : Nat) : Outcome (List Pet) Pet :=
  match pets.find? (fun p => p.id == pet_id) with
  | none => .detail pets 404 ("pet with id " ++ toString pet_id ++ " not found")
  | some _ =>
    .detail (pets.eraseP (fun p => p.id == pet_id)) 200
      ("pet with id " ++ toString pet_id ++ " deleted")

/-! ## Owner and Species update handlers (views.py lines 220-239, 303-317) -/

/-- Embeds `update_owner` (views.py lines 220-239): lookup first (404 if
absent), then the five required fields in order (400), then apply the
provided keys and commit. -/
def update_owner (owners : List Owner) (owner_id : Nat) (data : OwnerData) :
    Outcome (List Owner) Owner :=
  match owners.find? (fun o => o.id == owner_id) with
  | none =>
    .detail owners 404 ("owner with id " ++ toString owner_id ++ " does not exist")
  | some owner =>
    if data.first_name.isNone then .detail owners 400 "\"first_name\" field is required"
    else if data.last_name.isNone then .detail owners 400 "\"last_name\" field is required"
    else if data.phone.isNone then .detail owners 400 "\"phone\" field is required"
    else if data.mobile.isNone then .detail owners 400 "\"mobile\" field is required"
    else if data.email.isNone then .detail owners 400 "\"email\" field is required"
    else
      let owner' : Owner :=
        { owner with
            first_name := data.first_name.getD owner.first_name,
            last_name := data.last_name.getD owner.last_name,
            phone := data.phone.getD owner.phone,
            mobile := data.mobile.getD owner.mobile,
            email := data.email.getD owner.email }
      .payload (owners.map (fun o => if o.id == owner_id then owner' else o)) 200 owner'

/-- Embeds `update_species` (views.py lines 303-317): the `name` field is
checked first (400 if missing), then the species is looked up with
`.scalar()` and — unlike every sibling handler — used with NO existence
check: `species.name = data["name"]` dereferences `None` when the id
matches no row, raising an uncaught `AttributeError`. -/
def update_species (specs : List Species) (species_id : Nat) (data : SpeciesData) :
    Outcome (List Species) Species :=
  if data.name.isNone then .detail specs 400 "Field \"name\" is required"
  else
    match specs.find? (fun sp => sp.id == species_id) with
    | none => .raise specs "AttributeError"
    | some sp =>
      let sp' : Species := { sp with name := data.name.getD sp.name }
      .payload (specs.map (fun s => if s.id == species_id then sp' else s)) 200 sp'

/-! ## Signup and login (views.py lines 336-388) -/

/-- Server-assigned autoincrement primary key for a new user row. -/
def next_user_id (users : List User) : Nat :=
  (users.map (fun u => u.id)).foldr max 0 + 1

/-- Outcome of POST /signup/: a `{"detail": msg}` response with the store
after the call, or an uncaught exception. -/
inductive SignupOutcome where
  | detail (users : List User) (status : Nat) (msg : String)
  | raise (users : List User) (exn : String)
deriving DecidableEq, Repr

/-- Embeds `signup` (views.py lines 336-361): 400 when `email` is falsy;
`scalar_one_or_none` on an exact email match (raises on >1 row); 400 when
taken; werkzeug raises `AttributeError` when the password key is absent,
since `generate_password_hash(None)` is evaluated in the constructor
arguments; then `db.session.commit()` raises `IntegrityError` when
`first_name` is absent, because `User.first_name` is a
`nullable=False` column (models.py line 8) and `data.get("first_name")`
is `None` — no row is persisted in that case; otherwise insert the user
with the salted hash of the password and return 201. -/
def signup (users : List User) (data : SignupData) : SignupOutcome :=
  let email := data.email.getD ""
  if email = "" then .detail users 400 "email is required"
  else
    match users.filter (fun u => u.email == email) with
    | _ :: _ :: _ => .raise users "MultipleResultsFound"
    | [_] => .detail users 400 "email already taken"
    | [] =>
      match data.password with
      | none => .raise users "AttributeError"
      | some pw =>
        match data.first_name with
        | none => .raise users "IntegrityError"
        | some fn =>
          let user : User :=
            { id := next_user_id users, first_name := fn,
              last_name := data.last_name, email := email,
              password := generate_password_hash pw }
          .detail (users ++ [user]) 201 "user created successfully"

/-- Outcome of POST /login/: a `{"detail": msg}` error with a status, the
success body `{"token": tok}` (Flask's default status 200), or an
uncaught exception.  Login never mutates the store. -/
inductive LoginOutcome where
  | detail (status : Nat) (msg : String)
  | token (tok : Token)
  | raise (exn : String)
deriving DecidableEq, Repr

/-- HTTP status of a login outcome; a success body carries Flask's
default 200, an uncaught exception becomes Flask's generic 500. -/
def LoginOutcome.status : LoginOutcome → Nat
  | .detail s _ => s
  | .token _ => 200
  | .raise _ => 500

/-- Embeds `login` (views.py lines 364-388): 400 when either field is
falsy; `scalar_one_or_none` on an exact email match; the single 401
branch `if not user or not check_password_hash(...)` covers both an
unknown email and a failed hash check; on success issue the 30-minute
token for `user.id` under the process secret. -/
def login (users : List User) (secret : String) (now : Int) (data : LoginData) :
    LoginOutcome :=
  let email := data.email.getD ""
  let password := data.password.getD ""
  if email = "" ∨ password = "" then .detail 400 "missing email or password"
  else
    match users.filter (fun u => u.email == email) with
    | _ :: _ :: _ => .raise "MultipleResultsFound"
    | [] => .detail 401 "invalid email or password"
    | [user] =>
      if check_password_hash user.password password = false then
        .detail 401 "invalid email or password"
      else .token (jwt_encode user.id now secret)

/-! ## Helper lemmas on the embedded Python string operations -/

theorem pysplit_space_ne_nil (l : List Char) : pysplit_space l ≠ [] := by
  cases l with
  | nil => simp [pysplit_space]
  | cons c cs =>
    simp only [pysplit_space]
    split <;> simp

theorem pysplit_space_eq (l : List Char) :
    ∃ rest, pysplit_space l = l.takeWhile not_space :: rest := by
  induction l with
  | nil => exact ⟨[], rfl⟩
  | cons c cs ih =>
    by_cases hc : c = ' '
    · exact ⟨pysplit_space cs, by simp [pysplit_space, hc, List.takeWhile_cons, not_space]⟩
    · obtain ⟨rest, hr⟩ := ih
      exact ⟨rest, by simp [pysplit_space, hc, List.takeWhile_cons, not_space, hr]⟩

theorem pysplit_space_bearer (l : List Char) :
    pysplit_space ("Bearer ".data ++ l) = "Bearer".data :: pysplit_space l := by
  have h7 : "Bearer ".data = ['B', 'e', 'a', 'r', 'e', 'r', ' '] := rfl
  rw [h7]
  simp [pysplit_space, pysplit_space_ne_nil]

theorem extracted_token_bearer (t : String) :
    extracted_token ("Bearer " ++ t) = String.mk (t.data.takeWhile not_space) := by
  unfold extracted_token split_on_space
  rw [String.data_append, pysplit_space_bearer]
  obtain ⟨rest, hr⟩ := pysplit_space_eq t.data
  rw [hr]
  simp

theorem isPrefixOf_self_append (l m : List Char) : l.isPrefixOf (l ++ m) = true := by
  induction l with
  | nil => simp [List.isPrefixOf]
  | cons c cs ih => simp [List.isPrefixOf, ih]

theorem startswith_append (p t : String) : startswith (p ++ t) p = true := by
  unfold startswith
  rw [String.data_append]
  exact isPrefixOf_self_append p.data t.data

theorem bearer_ne_empty (t : String) : "Bearer " ++ t ≠ "" := by
  intro h
  have := congrArg String.data h
  rw [String.data_append] at this
  simp at this

/-- Bridge: on a header `"Bearer " ++ t` the middleware extracts the part
of `t` before its first space and either rejects it as missing (when
empty) or hands it to the verification stage. -/
theorem token_required_bearer (interp : String → Option Token) (secret : String)
    (now : Int) (users : List User) (t : String) :
    token_required interp secret now users (some ("Bearer " ++ t)) =
      if String.mk (t.data.takeWhile not_space) = "" then
        MwOutcome.response 401 "Missing token"
      else
        token_required_verify interp secret now users
          (String.mk (t.data.takeWhile not_space)) := by
  unfold token_required
  simp only [Option.getD_some]
  rw [if_neg (bearer_ne_empty t), startswith_append, extracted_token_bearer]
  simp

/-! ## Claims -/

/-- C9: a request with no Authorization header gets 401 with the
missing-header message, a request whose header has the wrong prefix
(`"Basic abc"`) gets 401 with a distinct message, and in both cases the
outcome is the same for every user store — the store is never read. -/
theorem C9_missing_header_and_wrong_prefix (interp : String → Option Token)
    (secret : String) (now : Int) (users : List User) :
    token_required interp secret now users none =
      .response 401 "Missing \"Authorization\" header" ∧
    token_required interp secret now users (some "Basic abc") =
      .response 401 "Invalid token prefix" ∧
    ("Missing \"Authorization\" header" : String) ≠ "Invalid token prefix" ∧
    (∀ users₂ : List User,
      token_required interp secret now users₂ none =
        token_required interp secret now users none ∧
      token_required interp secret now users₂ (some "Basic abc") =
        token_required interp secret now users (some "Basic abc")) := by
  exact ⟨rfl, rfl, by decide, fun _ => ⟨rfl, rfl⟩⟩

/-- C8: deleting a pet id that matches no stored row returns 404 and the
store after the call is exactly the store before it. -/
theorem C8_delete_pet_missing (pets : List Pet) (pet_id : Nat)
    (h : pets.find? (fun p => p.id == pet_id) = none) :
    delete_pet pets pet_id =
      .detail pets 404 ("pet with id " ++ toString pet_id ++ " not found") := by
  unfold delete_pet
  rw [h]

/-- C8 witness: deleting id 5 from a store holding only pet 1 returns 404
with that store unchanged. -/
theorem C8_delete_pet_missing_witness :
    delete_pet [{ id := 1, name := "Rex", owner_id := 1, age := 3, species_id := 2 }] 5 =
      .detail [{ id := 1, name := "Rex", owner_id := 1, age := 3, species_id := 2 }]
        404 "pet with id 5 not found" :=
  C8_delete_pet_missing
    [{ id := 1, name := "Rex", owner_id := 1, age := 3, species_id := 2 }] 5 rfl

/-- C3 counterexample: the header `"Bearer " ++ " x"` has a non-empty
token substring `" x"` after the prefix, yet the middleware fails with
MissingToken; and for `"Bearer " ++ "a b"` the string passed to
verification is `"a"`, not the full substring `"a b"`. -/
theorem C3_counterexample :
    (" x" : String) ≠ "" ∧
    token_required (fun _ => none) "s" 0 [] (some ("Bearer " ++ " x")) =
      .response 401 "Missing token" ∧
    ("a b" : String) ≠ "" ∧
    extracted_token ("Bearer " ++ "a b") = "a" ∧
    ("a" : String) ≠ "a b" := by
  exact ⟨by decide, rfl, by decide, rfl, by decide⟩

/-- C3 amended: for a header `"Bearer " ++ t` the middleware passes to
verification `authorization.split(" ")[1]`, i.e. the part of `t` before
its first space; it fails with MissingToken exactly when that part is
empty — in particular when `t` is empty or begins with a space — and
otherwise continues with that part (so `t` is passed whole only when it
contains no space). -/
theorem C3_token_extraction (t : String) (interp : String → Option Token)
    (secret : String) (now : Int) (users : List User) :
    extracted_token ("Bearer " ++ t) = String.mk (t.data.takeWhile not_space) ∧
    (t.data.takeWhile not_space = [] →
      token_required interp secret now users (some ("Bearer " ++ t)) =
        .response 401 "Missing token") ∧
    (t.data.takeWhile not_space ≠ [] →
      token_required interp secret now users (some ("Bearer " ++ t)) =
        token_required_verify interp secret now users
          (String.mk (t.data.takeWhile not_space))) := by
  refine ⟨extracted_token_bearer t, ?_, ?_⟩
  · intro h
    rw [token_required_bearer, h, if_pos rfl]
  · intro h
    rw [token_required_bearer, if_neg ?_]
    intro he
    exact h (congrArg String.data he)

/-- C3 amended witness: at `t = " x"` the token field is empty and the
middleware answers MissingToken; at `t = "tok"` (no space) the whole of
`t` reaches verification. -/
theorem C3_token_extraction_witness :
    token_required (fun _ => none) "s" 0 [] (some ("Bearer " ++ " x")) =
      .response 401 "Missing token" ∧
    token_required (fun _ => none) "s" 0 [] (some ("Bearer " ++ "tok")) =
      token_required_verify (fun _ => none) "s" 0 [] (String.mk "tok".data) :=
  ⟨(C3_token_extraction " x" (fun _ => none) "s" 0 []).2.1 rfl,
   (C3_token_extraction "tok" (fun _ => none) "s" 0 []).2.2 (by decide)⟩

/-- C1: updating with an id that matches no stored entity returns 404 and
leaves the store unchanged for Pet and Owner; for Species, however, the
handler has no existence check and dereferences the absent row, raising
an uncaught AttributeError instead of returning 404 — the store is still
unchanged, but no NotFound response is produced. -/
theorem C1_update_missing_id (pets : List Pet) (owners : List Owner)
    (specs : List Species) (pid oid sid : Nat) (pd : PetData) (od : OwnerData)
    (n : String)
    (hp : pets.find? (fun p => p.id == pid) = none)
    (ho : owners.find? (fun o => o.id == oid) = none)
    (hs : specs.find? (fun sp => sp.id == sid) = none) :
    update_pet pets pid pd =
      .detail pets 404 ("Pet with id " ++ toString pid ++ " not found") ∧
    update_owner owners oid od =
      .detail owners 404 ("owner with id " ++ toString oid ++ " does not exist") ∧
    update_species specs sid ⟨some n⟩ = .raise specs "AttributeError" := by
  refine ⟨?_, ?_, ?_⟩
  · unfold update_pet
    rw [hp]
  · unfold update_owner
    rw [ho]
  · unfold update_species
    simp only [Option.isNone_some, Bool.false_eq_true, if_false, hs]

/-- C1 witness: on empty stores, updating pet 1 and owner 2 return 404
with the stores untouched, while updating species 3 with a valid body
raises AttributeError. -/
theorem C1_update_missing_id_witness :
    update_pet [] 1 ⟨some "Rex", some 1, some 3, some 2⟩ =
      .detail [] 404 "Pet with id 1 not found" ∧
    update_owner [] 2
        ⟨some "Ada", some "Lov", some "1", some "2", some "a@b"⟩ =
      .detail [] 404 "owner with id 2 does not exist" ∧
    update_species [] 3 ⟨some "Feline"⟩ = .raise [] "AttributeError" :=
  C1_update_missing_id [] [] [] 1 2 3 ⟨some "Rex", some 1, some 3, some 2⟩
    ⟨some "Ada", some "Lov", some "1", some "2", some "a@b"⟩ "Feline" rfl rfl rfl

/-- C2: a token whose signature verifies under the process secret and
whose expiry lies in the future but whose payload lacks the `sub` claim
passes `jwt.decode` (PyJWT requires no claim by default), after which
`payload["sub"]` raises an uncaught KeyError — the middleware produces no
401 "Invalid token" response at all. -/
theorem C2_missing_subject_claim (secret : String) (now e : Int)
    (users : List User) (h : now < e) :
    jwt_decode { sub := none, exp := some e, key := secret } secret now =
      .ok { sub := none, exp := some e } ∧
    token_required
        (fun s => if s == "t0" then some { sub := none, exp := some e, key := secret }
          else none)
        secret now users (some "Bearer t0") = .raise "KeyError" := by
  have hd : jwt_decode { sub := none, exp := some e, key := secret } secret now =
      .ok { sub := none, exp := some e } := by
    unfold jwt_decode
    rw [if_neg (by simp)]
    exact if_neg (not_le.mpr h)
  refine ⟨hd, ?_⟩
  have hred : token_required
      (fun s => if s == "t0" then some { sub := none, exp := some e, key := secret }
        else none)
      secret now users (some "Bearer t0") =
      token_required_verify
        (fun s => if s == "t0" then some { sub := none, exp := some e, key := secret }
          else none)
        secret now users "t0" := rfl
  rw [hred]
  unfold token_required_verify
  simp only [beq_self_eq_true, if_pos, hd]

/-- C2 witness: at secret "k", expiry 100 and current time 0, the
sub-less token decodes fine and the middleware raises KeyError. -/
theorem C2_missing_subject_claim_witness :
    jwt_decode { sub := none, exp := some 100, key := "k" } "k" 0 =
      .ok { sub := none, exp := some 100 } ∧
    token_required
        (fun s => if s == "t0" then some { sub := none, exp := some 100, key := "k" }
          else none)
        "k" 0 [] (some "Bearer t0") = .raise "KeyError" :=
  C2_missing_subject_claim "k" 0 100 [] (by decide)

/-- C4: a token issued at time T under the process secret decodes
successfully at every time strictly before T+1800 seconds, decodes to
ExpiredToken at every time at or after T+1800 — in particular at exactly
T+1800 — and the middleware then answers 401 "Token expired". -/
theorem C4_token_expiry (sub T t : Int) (secret : String) (users : List User) :
    (t < T + 1800 →
      jwt_decode (jwt_encode sub T secret) secret t =
        .ok { sub := some sub, exp := some (T + 1800) }) ∧
    (T + 1800 ≤ t → jwt_decode (jwt_encode sub T secret) secret t = .expired) ∧
    jwt_decode (jwt_encode sub T secret) secret (T + 1800) = .expired ∧
    (T + 1800 ≤ t →
      token_required (fun s => if s == "t0" then some (jwt_encode sub T secret) else none)
        secret t users (some "Bearer t0") = .response 401 "Token expired") := by
  have hok : ∀ u : Int, T + 1800 ≤ u →
      jwt_decode (jwt_encode sub T secret) secret u = .expired := by
    intro u hu
    unfold jwt_decode jwt_encode
    rw [if_neg (by simp)]
    exact if_pos hu
  refine ⟨?_, hok t, hok (T + 1800) le_rfl, ?_⟩
  · intro ht
    unfold jwt_decode jwt_encode
    rw [if_neg (by simp)]
    exact if_neg (not_le.mpr ht)
  · intro ht
    have hred : token_required
        (fun s => if s == "t0" then some (jwt_encode sub T secret) else none)
        secret t users (some "Bearer t0") =
        token_required_verify
          (fun s => if s == "t0" then some (jwt_encode sub T secret) else none)
          secret t users "t0" := rfl
    rw [hred]
    unfold token_required_verify
    simp only [beq_self_eq_true, if_pos, hok t ht]

/-- C4 witness: a token issued at T = 0 is accepted at time 1799,
rejected at exactly 1800 (and at 2000), and the middleware answers 401
"Token expired" there. -/
theorem C4_token_expiry_witness :
    jwt_decode (jwt_encode 7 0 "k") "k" 1799 =
      .ok { sub := some 7, exp := some 1800 } ∧
    jwt_decode (jwt_encode 7 0 "k") "k" 1800 = .expired ∧
    token_required (fun s => if s == "t0" then some (jwt_encode 7 0 "k") else none)
      "k" 2000 [] (some "Bearer t0") = .response 401 "Token expired" :=
  ⟨(C4_token_expiry 7 0 1799 "k" []).1 (by decide),
   (C4_token_expiry 7 0 1800 "k" []).2.2.1,
   (C4_token_expiry 7 0 2000 "k" []).2.2.2 (by decide)⟩

/-- C6: a login with a registered email whose password fails the hash
check and a login with an email matching no user produce identical
responses: 401 with body detail "invalid email or password". -/
theorem C6_login_failure_indistinguishable (users : List User) (u : User)
    (e₁ p₁ e₂ p₂ secret : String) (now : Int)
    (h₁ : e₁ ≠ "") (h₂ : p₁ ≠ "") (h₃ : e₂ ≠ "") (h₄ : p₂ ≠ "")
    (hfound : users.filter (fun x => x.email == e₁) = [u])
    (hbad : check_password_hash u.password p₁ = false)
    (hnone : users.filter (fun x => x.email == e₂) = []) :
    login users secret now ⟨some e₁, some p₁⟩ =
      .detail 401 "invalid email or password" ∧
    login users secret now ⟨some e₂, some p₂⟩ =
      login users secret now ⟨some e₁, some p₁⟩ := by
  have ha : login users secret now ⟨some e₁, some p₁⟩ =
      .detail 401 "invalid email or password" := by
    unfold login
    simp only [Option.getD_some]
    rw [if_neg (by push_neg; exact ⟨h₁, h₂⟩), hfound]
    simp [hbad]
  have hb : login users secret now ⟨some e₂, some p₂⟩ =
      .detail 401 "invalid email or password" := by
    unfold login
    simp only [Option.getD_some]
    rw [if_neg (by push_neg; exact ⟨h₃, h₄⟩), hnone]
  exact ⟨ha, hb.trans ha.symm⟩

/-- Concrete user fixture: Ada, a@b, with the hash of password "pw". -/
def user_ab : User :=
  ⟨1, "Ada", none, "a@b", generate_password_hash "pw"⟩

/-- C6 witness: against a store holding only the user a@b (password hash
of "pw"), logging in as a@b with "wrong" and logging in as the unknown
c@d with "pw" both yield 401 "invalid email or password". -/
theorem C6_login_failure_indistinguishable_witness :
    login [user_ab] "k" 0 ⟨some "a@b", some "wrong"⟩ =
      .detail 401 "invalid email or password" ∧
    login [user_ab] "k" 0 ⟨some "c@d", some "pw"⟩ =
      login [user_ab] "k" 0 ⟨some "a@b", some "wrong"⟩ :=
  C6_login_failure_indistinguishable [user_ab] user_ab
    "a@b" "wrong" "c@d" "pw" "k" 0
    (by decide) (by decide) (by decide) (by decide) rfl (by decide) rfl

/-- C5 counterexample: the claim fails as stated.  A signup payload with
an unregistered email but no first_name makes the commit raise
IntegrityError (`User.first_name` is `nullable=False`), no user is
created and the subsequent login with the same credentials returns 401,
not 200; and a payload with the empty-string password signs up fine
(201) but the subsequent login with that password returns 400, not
200. -/
theorem C5_counterexample :
    signup [] ⟨some "a@b", some "pw", none, none⟩ = .raise [] "IntegrityError" ∧
    login [] "k" 0 ⟨some "a@b", some "pw"⟩ =
      .detail 401 "invalid email or password" ∧
    signup [] ⟨some "c@d", some "", some "Ada", none⟩ =
      .detail [⟨1, "Ada", none, "c@d", generate_password_hash ""⟩] 201
        "user created successfully" ∧
    login [⟨1, "Ada", none, "c@d", generate_password_hash ""⟩] "k" 0
      ⟨some "c@d", some ""⟩ = .detail 400 "missing email or password" :=
  ⟨rfl, rfl, rfl, rfl⟩

/-- C5 amended: when the email of a signup payload is not yet registered
and the payload carries a first_name (the column is `nullable=False`, so
its absence makes the commit fail) and a non-empty password (login
treats the empty string as missing), signup creates exactly one user, a
login with the same email and password answers with status 200 carrying
the token issued for that user, and decoding that token with the same
secret at any time before its expiry yields the created user's id as the
subject claim. -/
theorem C5_signup_then_login (users : List User) (sd : SignupData)
    (e pw fn secret : String) (now t : Int)
    (he : sd.email = some e) (hene : e ≠ "")
    (hpw : sd.password = some pw) (hpwne : pw ≠ "")
    (hfn : sd.first_name = some fn)
    (hfresh : users.filter (fun u => u.email == e) = []) :
    ∃ u : User,
      signup users sd = .detail (users ++ [u]) 201 "user created successfully" ∧
      u.email = e ∧
      login (users ++ [u]) secret now ⟨some e, some pw⟩ =
        .token (jwt_encode u.id now secret) ∧
      (login (users ++ [u]) secret now ⟨some e, some pw⟩).status = 200 ∧
      (t < now + 1800 →
        jwt_decode (jwt_encode u.id now secret) secret t =
          .ok { sub := some u.id, exp := some (now + 1800) }) := by
  refine ⟨⟨next_user_id users, fn, sd.last_name, e,
    generate_password_hash pw⟩, ?_, rfl, ?_, ?_, ?_⟩
  · unfold signup
    rw [he]
    simp only [Option.getD_some]
    rw [if_neg hene, hfresh, hpw, hfn]
  · unfold login
    simp only [Option.getD_some]
    rw [if_neg (by push_neg; exact ⟨hene, hpwne⟩), List.filter_append, hfresh]
    simp [check_password_hash]
  · unfold login
    simp only [Option.getD_some]
    rw [if_neg (by push_neg; exact ⟨hene, hpwne⟩), List.filter_append, hfresh]
    simp [check_password_hash, LoginOutcome.status]
  · intro ht
    unfold jwt_decode jwt_encode
    rw [if_neg (by simp)]
    exact if_neg (not_le.mpr ht)

/-- C5 witness: on an empty store, signing up Ada / a@b with password
"pw" and then logging in with the same credentials yields a 200 token
whose decoding at time 10 returns the created user's id 1. -/
theorem C5_signup_then_login_witness :
    ∃ u : User,
      signup [] ⟨some "a@b", some "pw", some "Ada", none⟩ =
        .detail ([] ++ [u]) 201 "user created successfully" ∧
      u.email = "a@b" ∧
      login ([] ++ [u]) "k" 0 ⟨some "a@b", some "pw"⟩ =
        .token (jwt_encode u.id 0 "k") ∧
      (login ([] ++ [u]) "k" 0 ⟨some "a@b", some "pw"⟩).status = 200 ∧
      (10 < (0 : Int) + 1800 →
        jwt_decode (jwt_encode u.id 0 "k") "k" 10 =
          .ok { sub := some u.id, exp := some (0 + 1800) }) :=
  C5_signup_then_login [] ⟨some "a@b", some "pw", some "Ada", none⟩
    "a@b" "pw" "Ada" "k" 0 10 rfl (by decide) rfl (by decide) rfl rfl

/-- C7: with all four required fields present, creating a pet whose
owner_id and species_id equal those of a stored pet and whose name
matches it case-insensitively returns 409 and inserts nothing; when no
such triple match exists the creation succeeds with 201 and appends
exactly one row; and a 201 outcome implies no match existed. -/
theorem C7_pet_triple_uniqueness (pets : List Pet) (name : String)
    (oid age sid : Int) :
    ((∃ p ∈ pets, lower p.name = lower name ∧ p.owner_id = oid ∧ p.species_id = sid) →
      create_pet pets ⟨some name, some oid, some age, some sid⟩ =
        .detail pets 409 ("Pet \"" ++ name ++ "\" already exists")) ∧
    (¬(∃ p ∈ pets, lower p.name = lower name ∧ p.owner_id = oid ∧ p.species_id = sid) →
      create_pet pets ⟨some name, some oid, some age, some sid⟩ =
        .payload (pets ++ [⟨next_pet_id pets, name, oid, age, sid⟩]) 201
          ⟨next_pet_id pets, name, oid, age, sid⟩) ∧
    (∀ pets' st pl,
      create_pet pets ⟨some name, some oid, some age, some sid⟩ = .payload pets' st pl →
      st = 201 ∧
        ¬(∃ p ∈ pets, lower p.name = lower name ∧ p.owner_id = oid ∧ p.species_id = sid)) := by
  have hiff : (pets.find? (fun p => lower p.name == lower name
      && p.owner_id == oid && p.species_id == sid)).isSome = true ↔
      ∃ p ∈ pets, lower p.name = lower name ∧ p.owner_id = oid ∧ p.species_id = sid := by
    simp [List.find?_isSome, Bool.and_eq_true, beq_iff_eq, and_assoc]
  have h409 : (∃ p ∈ pets, lower p.name = lower name ∧ p.owner_id = oid
      ∧ p.species_id = sid) →
      create_pet pets ⟨some name, some oid, some age, some sid⟩ =
        .detail pets 409 ("Pet \"" ++ name ++ "\" already exists") := by
    intro hex
    unfold create_pet
    simp only [Option.isNone_some, Bool.false_eq_true, if_false, Option.getD_some]
    rw [if_pos (hiff.mpr hex)]
  have h201 : ¬(∃ p ∈ pets, lower p.name = lower name ∧ p.owner_id = oid
      ∧ p.species_id = sid) →
      create_pet pets ⟨some name, some oid, some age, some sid⟩ =
        .payload (pets ++ [⟨next_pet_id pets, name, oid, age, sid⟩]) 201
          ⟨next_pet_id pets, name, oid, age, sid⟩ := by
    intro hnc
    unfold create_pet
    simp only [Option.isNone_some, Bool.false_eq_true, if_false, Option.getD_some]
    rw [if_neg (fun hb => hnc (hiff.mp hb))]
  refine ⟨h409, h201, ?_⟩
  intro pets' st pl heq
  by_cases hc : ∃ p ∈ pets, lower p.name = lower name ∧ p.owner_id = oid
      ∧ p.species_id = sid
  · rw [h409 hc] at heq
    simp at heq
  · rw [h201 hc] at heq
    simp only [Outcome.payload.injEq] at heq
    exact ⟨heq.2.1.symm, hc⟩

/-- C7 witness: with Rex/owner 1/species 2 stored, creating REX/1/2 gives
409 without inserting, creating Bella/1/2 succeeds with 201, and the
latter 201 certifies the absence of a matching triple. -/
theorem C7_pet_triple_uniqueness_witness :
    create_pet [⟨1, "Rex", 1, 3, 2⟩] ⟨some "REX", some 1, some 2, some 2⟩ =
      .detail [⟨1, "Rex", 1, 3, 2⟩] 409 "Pet \"REX\" already exists" ∧
    create_pet [⟨1, "Rex", 1, 3, 2⟩] ⟨some "Bella", some 1, some 2, some 2⟩ =
      .payload [⟨1, "Rex", 1, 3, 2⟩, ⟨2, "Bella", 1, 2, 2⟩] 201 ⟨2, "Bella", 1, 2, 2⟩ :=
  ⟨(C7_pet_triple_uniqueness [⟨1, "Rex", 1, 3, 2⟩] "REX" 1 2 2).1
      (by exact ⟨⟨1, "Rex", 1, 3, 2⟩, by simp, by decide, rfl, rfl⟩),
   (C7_pet_triple_uniqueness [⟨1, "Rex", 1, 3, 2⟩] "Bella" 1 2 2).2.1 (by decide)⟩

/-- C10: after a token passes signature and expiry validation, the
middleware resolves the user with a lookup requiring exactly one row: if
the subject id matches no stored user it raises an uncaught
NoResultFound — it never returns a 401 or any other HTTP error response
— and if exactly one user matches, that user is attached and the handler
runs. -/
theorem C10_verified_token_lookup (interp : String → Option Token)
    (secret s₀ : String) (now e sub : Int) (users : List User) (tok : Token)
    (hs₀ : s₀ ≠ "") (hsp : ∀ c ∈ s₀.data, not_space c = true)
    (hi : interp s₀ = some tok) (hkey : tok.key = secret)
    (hexp : tok.exp = some e) (hnow : now < e) (hsub : tok.sub = some sub) :
    (users.filter (fun u => (u.id : Int) == sub) = [] →
      token_required interp secret now users (some ("Bearer " ++ s₀)) =
        .raise "NoResultFound") ∧
    (∀ u : User, users.filter (fun u' => (u'.id : Int) == sub) = [u] →
      token_required interp secret now users (some ("Bearer " ++ s₀)) =
        .proceed u) := by
  have htw : s₀.data.takeWhile not_space = s₀.data :=
    List.takeWhile_eq_self_iff.mpr hsp
  have hmk : String.mk s₀.data = s₀ := rfl
  have hbridge := token_required_bearer interp secret now users s₀
  rw [htw, hmk, if_neg hs₀] at hbridge
  have hd : jwt_decode tok secret now = .ok { sub := some sub, exp := some e } := by
    unfold jwt_decode
    rw [hkey, if_neg (by simp), hexp]
    show (if e ≤ now then JwtResult.expired
      else JwtResult.ok { sub := tok.sub, exp := some e }) = _
    rw [if_neg (not_le.mpr hnow), hsub]
  have hver : token_required_verify interp secret now users s₀ =
      match users.filter (fun u => (u.id : Int) == sub) with
      | [] => MwOutcome.raise "NoResultFound"
      | [u] => MwOutcome.proceed u
      | _ :: _ :: _ => MwOutcome.raise "MultipleResultsFound" := by
    unfold token_required_verify
    simp only [hi, hd]
  refine ⟨?_, ?_⟩
  · intro hf
    rw [hbridge, hver, hf]
  · intro u hf
    rw [hbridge, hver, hf]

/-- C10 witness: under a verified, unexpired token with subject 5, the
middleware raises NoResultFound on an empty user store and proceeds as
the stored user when exactly user 5 exists. -/
theorem C10_verified_token_lookup_witness :
    token_required (fun x => if x == "t0" then some ⟨some 5, some 10, "k"⟩ else none)
      "k" 0 [] (some ("Bearer " ++ "t0")) = .raise "NoResultFound" ∧
    token_required (fun x => if x == "t0" then some ⟨some 5, some 10, "k"⟩ else none)
      "k" 0 [⟨5, "Eve", none, "a@b", "h"⟩] (some ("Bearer " ++ "t0")) =
      .proceed ⟨5, "Eve", none, "a@b", "h"⟩ :=
  ⟨(C10_verified_token_lookup
      (fun x => if x == "t0" then some ⟨some 5, some 10, "k"⟩ else none)
      "k" "t0" 0 10 5 [] ⟨some 5, some 10, "k"⟩
      (by decide) (by decide) rfl rfl rfl (by decide) rfl).1 rfl,
   (C10_verified_token_lookup
      (fun x => if x == "t0" then some ⟨some 5, some 10, "k"⟩ else none)
      "k" "t0" 0 10 5 [⟨5, "Eve", none, "a@b", "h"⟩] ⟨some 5, some 10, "k"⟩
      (by decide) (by decide) rfl rfl rfl (by decide) rfl).2
      ⟨5, "Eve", none, "a@b", "h"⟩ rfl⟩

end Dogtor
